import Mathlib

/-!
Shallow embedding of `server/builder/cache.go` (nixery): a two-tier cache
for image manifests and layer build entries.  The local tier is a
disk-backed manifest directory plus an in-memory layer map; the durable
tier is an external bucket accessed through probe/read/write.  Effects
(file system, bucket, logging, spawned goroutines) are made explicit:
every operation is a pure function on a `State`, failure modes of the
collaborators are injected through boolean oracles carried in the state,
`go f(...)` statements become pending `GoTask`s returned to the caller, and
each durable-store interaction is recorded in a `DurableOp` trace.
-/

/-- Raw bytes (`[]byte` / `json.RawMessage`): a manifest payload or a
serialized layer entry. -/
abbrev Bytes := List Nat

/-- Modelled from the spec: `manifest.Entry` is defined outside this
repository's sources; the spec describes a layer entry as a small
structured record holding a content hash and a size. -/
structure Entry where
  hash : String
  size : Nat
deriving DecidableEq, Repr

/-- The Go zero value of `manifest.Entry`. -/
def Entry.zero : Entry := ⟨"", 0⟩

instance : Inhabited Entry := ⟨Entry.zero⟩

/-- `json.Marshal` of a layer entry (never fails; the source ignores the
error with `j, _ := json.Marshal(&entry)`). -/
def serializeEntry (e : Entry) : Bytes :=
  e.size :: e.hash.toList.map Char.toNat

/-- `json.Unmarshal` into a layer entry; fails on malformed bytes. -/
def deserializeEntry (b : Bytes) : Option Entry :=
  match b with
  | [] => none
  | n :: cs =>
    if cs.all (fun c => c < 55296 || (57343 < c && c < 1114112)) then
      some ⟨String.mk (cs.map Char.ofNat), n⟩
    else
      none

/-- Severity of a log statement (`logrus` levels used by the source). -/
inductive Severity where
  | debug
  | info
  | error
deriving DecidableEq, Repr

/-- One emitted log statement. -/
structure LogEntry where
  sev : Severity
  msg : String
deriving DecidableEq, Repr

/-- The local file system as seen through `os` / `ioutil`:
`tempDir` is `os.TempDir()`, `dirs` records directories created by
`os.MkdirAll`, `files` maps a path to its content.  The boolean oracles
inject the collaborator's failure modes: `openFail p` makes `os.Open(p)`
fail even though the file exists (e.g. permissions), `readAllFail p`
makes `ioutil.ReadAll` fail after a successful open, `writeFail p` makes
`ioutil.WriteFile` fail, `mkdirFail` makes `os.MkdirAll` fail. -/
structure FileSystem where
  tempDir : String
  dirs : String → Bool
  files : String → Option Bytes
  openFail : String → Bool
  readAllFail : String → Bool
  writeFail : String → Bool
  mkdirFail : Bool

/-- The durable bucket (`s.Bucket`), an opaque namespaced key → bytes
store.  `objects` holds the stored blobs; the oracles inject failures of
the individual client calls: `attrsFail k` fails the existence probe
`obj.Attrs` even though the object exists, `readerFail k` fails
`obj.NewReader`, `readAllFail k` fails reading the opened reader,
`copyFail k` fails `io.Copy` onto the writer, `closeFail k` fails the
writer's `Close`. -/
structure Bucket where
  objects : String → Option Bytes
  attrsFail : String → Bool
  readerFail : String → Bool
  readAllFail : String → Bool
  copyFail : String → Bool
  closeFail : String → Bool

/-- `LocalCache`: manifest cache directory (`mdir`) and the in-memory
layer map (`lcache`).  The two `sync.RWMutex` fields guard concurrent
access in Go and have no counterpart in this sequential model. -/
structure LocalCache where
  mdir : String
  lcache : String → Option Entry

/-- The world an operation runs in: the `State.Cache` local cache, the
file system backing it, the bucket, and the accumulated log. -/
structure State where
  cache : LocalCache
  fs : FileSystem
  bucket : Bucket
  log : List LogEntry

/-- Append one log statement. -/
def State.logged (s : State) (sev : Severity) (msg : String) : State :=
  { s with log := s.log ++ [⟨sev, msg⟩] }

/-- A `go ...` statement: work spawned fire-and-forget, recorded as a
pending task instead of being run inline. -/
inductive GoTask where
  | writeManifest (key : String) (m : Bytes)
  | writeLayer (key : String) (e : Entry)
deriving DecidableEq, Repr

/-- One interaction with the durable bucket, for stating which remote
calls an operation performed. -/
inductive DurableOp where
  | probe (key : String)
  | read (key : String)
  | write (key : String)
deriving DecidableEq, Repr

/-- `manifestFromLocalCache`: read-lock, `os.Open(c.mdir + key)` (any
open failure is logged at debug severity and reported as a miss), then
`ioutil.ReadAll` (failure logged at error severity, reported as a miss),
else return the payload. -/
def manifestFromLocalCache (s : State) (key : String) :
    (Option Bytes × Bool) × State :=
  let path := s.cache.mdir ++ key
  match s.fs.files path with
  | none =>
    ((none, false), s.logged .debug "failed to read manifest from local cache")
  | some m =>
    if s.fs.openFail path then
      ((none, false), s.logged .debug "failed to read manifest from local cache")
    else if s.fs.readAllFail path then
      ((none, false), s.logged .error "failed to read manifest from local cache")
    else
      ((some m, true), s)

/-- `localCacheManifest`: write-lock, `ioutil.WriteFile(c.mdir+key, m)`;
failure is logged at error severity and swallowed. -/
def localCacheManifest (s : State) (key : String) (m : Bytes) : State :=
  let path := s.cache.mdir ++ key
  if s.fs.writeFail path then
    s.logged .error "failed to locally cache manifest"
  else
    { s with fs := { s.fs with files := Function.update s.fs.files path (some m) } }

/-- `layerFromLocalCache` at the value level: `e, ok := c.lcache[key]`
copies the map value (the Go zero value on a miss) and returns it with
the hit flag; the returned pointer `&e` is modelled separately in
`layerFromLocalCacheRef`. -/
def layerFromLocalCache (c : LocalCache) (key : String) : Entry × Bool :=
  ((c.lcache key).getD Entry.zero, (c.lcache key).isSome)

/-- `localCacheLayer`: write-lock, map insert/overwrite. -/
def localCacheLayer (s : State) (key : String) (e : Entry) : State :=
  { s with
    cache := { s.cache with
               lcache := Function.update s.cache.lcache key (some e) } }

/-- A heap of layer-entry cells, for making the pointer returned by
`layerFromLocalCache` explicit: a pointer is an index into `cells`. -/
structure LayerHeap where
  cells : List Entry
deriving Repr

/-- Write through a pointer. -/
def LayerHeap.hset (h : LayerHeap) (p : Nat) (e : Entry) : LayerHeap :=
  ⟨h.cells.set p e⟩

/-- Read through a pointer. -/
def LayerHeap.hget (h : LayerHeap) (p : Nat) : Entry :=
  h.cells.getD p Entry.zero

/-- `layerFromLocalCache` with the pointer made explicit:
`e, ok := c.lcache[key]` allocates a fresh stack cell holding a copy of
the map's value and `&e` is that cell's address.  Returns the (unchanged)
cache, the heap extended with the fresh cell, the pointer and the hit
flag. -/
def layerFromLocalCacheRef (c : LocalCache) (h : LayerHeap) (key : String) :
    LocalCache × LayerHeap × Nat × Bool :=
  let e := (c.lcache key).getD Entry.zero
  let ok := (c.lcache key).isSome
  (c, ⟨h.cells ++ [e]⟩, h.cells.length, ok)

/-- `manifestFromCache`: local lookup first; on a miss, probe the bucket
object `manifests/<key>` (`obj.Attrs`; any probe error, absence
included, is an unlogged miss), open a reader (failure logged at error,
miss), read it (failure logged at error, miss); on success schedule the
fire-and-forget local write-back (`go s.Cache.localCacheManifest`), log
at info and return the payload as found. -/
def manifestFromCache (s : State) (key : String) :
    (Option Bytes × Bool) × State × List GoTask × List DurableOp :=
  match manifestFromLocalCache s key with
  | ((m, true), s1) => ((m, true), s1, [], [])
  | ((_, false), s1) =>
    let okey := "manifests/" ++ key
    match s1.bucket.objects okey with
    | none => ((none, false), s1, [], [.probe okey])
    | some m =>
      if s1.bucket.attrsFail okey then
        ((none, false), s1, [], [.probe okey])
      else if s1.bucket.readerFail okey then
        ((none, false),
         s1.logged .error "failed to retrieve manifest from bucket cache",
         [], [.probe okey, .read okey])
      else if s1.bucket.readAllFail okey then
        ((none, false),
         s1.logged .error "failed to read cached manifest from bucket",
         [], [.probe okey, .read okey])
      else
        ((some m, true),
         (s1.logged .info "retrieved manifest from GCS"),
         [.writeManifest key m], [.probe okey, .read okey])

/-- `cacheManifest`: schedule the fire-and-forget local write
(`go s.Cache.localCacheManifest`), then synchronously write the payload
to the bucket object `manifests/<key>`; an `io.Copy` or `Close` failure
is logged at error severity and the function returns without the object
being materialized; on success it logs at info. -/
def cacheManifest (s : State) (key : String) (m : Bytes) :
    State × List GoTask × List DurableOp :=
  let okey := "manifests/" ++ key
  let t := [GoTask.writeManifest key m]
  if s.bucket.copyFail okey then
    (s.logged .error "failed to cache manifest to GCS", t, [.write okey])
  else if s.bucket.closeFail okey then
    (s.logged .error "failed to cache manifest to GCS", t, [.write okey])
  else
    (({ s with
        bucket := { s.bucket with
                    objects := Function.update s.bucket.objects okey (some m) } }).logged
       .info "cached manifest to GCS",
     t, [.write okey])

/-- `layerFromCache`: local layer-map lookup first; on a miss, probe the
bucket object `builds/<key>` (any probe error is an unlogged miss), open
a reader (failure logged at error, miss), read it (failure logged at
error, miss), `json.Unmarshal` the bytes (failure logged at error,
miss); on success schedule the fire-and-forget local write-back
(`go s.Cache.localCacheLayer`) and return the entry as found.  The `nil`
pointer returned on every miss is `none`. -/
def layerFromCache (s : State) (key : String) :
    (Option Entry × Bool) × State × List GoTask × List DurableOp :=
  match layerFromLocalCache s.cache key with
  | (entry, true) => ((some entry, true), s, [], [])
  | (_, false) =>
    let okey := "builds/" ++ key
    match s.bucket.objects okey with
    | none => ((none, false), s, [], [.probe okey])
    | some b =>
      if s.bucket.attrsFail okey then
        ((none, false), s, [], [.probe okey])
      else if s.bucket.readerFail okey then
        ((none, false),
         s.logged .error "failed to retrieve cached layer from GCS",
         [], [.probe okey, .read okey])
      else if s.bucket.readAllFail okey then
        ((none, false),
         s.logged .error "failed to read cached layer from GCS",
         [], [.probe okey, .read okey])
      else
        match deserializeEntry b with
        | none =>
          ((none, false),
           s.logged .error "failed to unmarshal cached layer",
           [], [.probe okey, .read okey])
        | some entry =>
          ((some entry, true), s, [GoTask.writeLayer key entry],
           [.probe okey, .read okey])

/-- `cacheLayer`: synchronously insert the entry into the local layer
map, serialize it (`json.Marshal`, error ignored) and synchronously
write the bytes to the bucket object `builds/<key>`; an `io.Copy` or
`Close` failure is logged at error severity and swallowed. -/
def cacheLayer (s : State) (key : String) (e : Entry) :
    State × List GoTask × List DurableOp :=
  let s0 := localCacheLayer s key e
  let okey := "builds/" ++ key
  let j := serializeEntry e
  if s0.bucket.copyFail okey then
    (s0.logged .error "failed to cache layer", [], [.write okey])
  else if s0.bucket.closeFail okey then
    (s0.logged .error "failed to cache layer", [], [.write okey])
  else
    ({ s0 with
       bucket := { s0.bucket with
                   objects := Function.update s0.bucket.objects okey (some j) } },
     [], [.write okey])

/-- `NewCache`: `os.MkdirAll(os.TempDir() + "/nixery")`; on failure the
error is returned to the caller, otherwise the cache is constructed with
`mdir` set to that fixed path (plus a trailing slash) and an empty layer
map. -/
def NewCache (fs : FileSystem) : Except String (LocalCache × FileSystem) :=
  let path := fs.tempDir ++ "/nixery"
  if fs.mkdirFail then
    .error "mkdir failed"
  else
    .ok ({ mdir := path ++ "/", lcache := fun _ => none },
         { fs with dirs := Function.update fs.dirs path true })

/-- Run one pending fire-and-forget task. -/
def runTask (s : State) : GoTask → State
  | .writeManifest key m => localCacheManifest s key m
  | .writeLayer key e => localCacheLayer s key e

/-- Run all pending fire-and-forget tasks, in order. -/
def runTasks (s : State) (ts : List GoTask) : State :=
  ts.foldl runTask s

/-! Concrete fixtures used by the example instantiations below. -/

/-- A benign file system: empty, no failures. -/
def fs0 : FileSystem :=
  { tempDir := "/tmp", dirs := fun _ => false, files := fun _ => none,
    openFail := fun _ => false, readAllFail := fun _ => false,
    writeFail := fun _ => false, mkdirFail := false }

/-- A benign bucket: empty, no failures. -/
def bucket0 : Bucket :=
  { objects := fun _ => none, attrsFail := fun _ => false,
    readerFail := fun _ => false, readAllFail := fun _ => false,
    copyFail := fun _ => false, closeFail := fun _ => false }

/-- The cache as `NewCache` builds it on the benign file system. -/
def cache0 : LocalCache := { mdir := "/tmp/nixery/", lcache := fun _ => none }

/-- Freshly constructed state: empty caches, nothing fails. -/
def state0 : State := { cache := cache0, fs := fs0, bucket := bucket0, log := [] }

/-- A state in which every fallible collaborator call fails. -/
def sAllFail : State :=
  { cache := cache0,
    fs := { fs0 with
            openFail := fun _ => true,
            readAllFail := fun _ => true,
            writeFail := fun _ => true,
            mkdirFail := true },
    bucket := { bucket0 with
                attrsFail := fun _ => true,
                readerFail := fun _ => true,
                readAllFail := fun _ => true,
                copyFail := fun _ => true,
                closeFail := fun _ => true },
    log := [] }

/-- A state whose local tiers hold `abc`: the manifest file is on disk and
the layer map has an entry. -/
def stateHit : State :=
  { state0 with
    fs := { fs0 with
            files := fun p => if p = "/tmp/nixery/abc" then some [7, 7] else none },
    cache := { cache0 with
               lcache := fun k => if k = "abc" then some ⟨"deadbeef", 42⟩ else none } }

/-- A concrete layer entry, the spec's example. -/
def entryDead : Entry := ⟨"deadbeef", 42⟩

/-- A state whose durable tier holds `abc` in both namespaces but whose
reader fails for the manifest object, while the layer object holds bytes
that do not unmarshal. -/
def stateRemoteFail : State :=
  { state0 with
    bucket := { bucket0 with
                objects := fun k =>
                  if k = "manifests/abc" then some [1]
                  else if k = "builds/abc" then some [] else none,
                readerFail := fun k => k == "manifests/abc" } }

/-! Theorems. -/

/-- Reading an element just appended at the end of a list. -/
lemma getD_concat_length (l : List Entry) (a d : Entry) :
    (l ++ [a]).getD l.length d = a := by
  induction l with
  | nil => rfl
  | cons x xs ih => simp [List.getD]

/-- C5: after `cacheLayer(k, e)` completes — its local write being the
synchronous map insert, with no deferred task — `layerFromCache(k)`
returns `(e, true)`: the fetched entry has the hash and the size that
were stored, in every state (the local hit shields any bucket-write
failure). -/
theorem c5_storeLayer_then_fetchLayer (s : State) (key : String) (e : Entry) :
    (layerFromCache (cacheLayer s key e).1 key).1 = (some e, true) ∧
    ((layerFromCache (cacheLayer s key e).1 key).1.1.map Entry.hash = some e.hash ∧
     (layerFromCache (cacheLayer s key e).1 key).1.1.map Entry.size = some e.size) ∧
    (cacheLayer s key e).2.1 = [] := by
  have hl : ((cacheLayer s key e).1).cache.lcache key = some e := by
    unfold cacheLayer localCacheLayer
    dsimp only
    split_ifs <;> simp [State.logged, Function.update_same]
  have htask : (cacheLayer s key e).2.1 = [] := by
    unfold cacheLayer
    dsimp only
    split_ifs <;> rfl
  refine ⟨?_, ?_, htask⟩
  · unfold layerFromCache layerFromLocalCache
    simp [hl]
  · unfold layerFromCache layerFromLocalCache
    simp [hl]

/-- C9: the pointer returned by the layer-cache read refers to a fresh
copy of the stored entry: writing any entry through that pointer leaves
the cache's in-memory map unchanged, and a subsequent read for the same
key still returns (a copy of) the originally stored value and the
original hit flag. -/
theorem c9_layer_get_returns_copy (c : LocalCache) (h : LayerHeap)
    (key : String) (e' : Entry) :
    (layerFromLocalCacheRef c h key).1 = c ∧
    (let r1 := layerFromLocalCacheRef c h key
     let h2 := r1.2.1.hset r1.2.2.1 e'
     let r2 := layerFromLocalCacheRef c h2 key
     r2.1 = c ∧
     r2.2.1.hget r2.2.2.1 = (c.lcache key).getD Entry.zero ∧
     r2.2.2.2 = (c.lcache key).isSome) := by
  refine ⟨rfl, rfl, ?_, rfl⟩
  show LayerHeap.hget _ _ = _
  unfold LayerHeap.hget layerFromLocalCacheRef
  exact getD_concat_length _ _ _

/-- C10: when the in-memory layer map misses, the layer-cache read
returns `found = false` together with a valid (non-nil) pointer to a
freshly allocated cell holding the zero-valued entry. -/
theorem c10_layer_miss_zero_entry (c : LocalCache) (h : LayerHeap) (key : String)
    (hm : c.lcache key = none) :
    layerFromLocalCache c key = (Entry.zero, false) ∧
    layerFromLocalCacheRef c h key =
      (c, ⟨h.cells ++ [Entry.zero]⟩, h.cells.length, false) ∧
    (layerFromLocalCacheRef c h key).2.2.1 <
      (layerFromLocalCacheRef c h key).2.1.cells.length ∧
    (layerFromLocalCacheRef c h key).2.1.hget
      (layerFromLocalCacheRef c h key).2.2.1 = Entry.zero := by
  refine ⟨?_, ?_, ?_, ?_⟩
  · unfold layerFromLocalCache
    simp [hm]
  · unfold layerFromLocalCacheRef
    simp [hm]
  · unfold layerFromLocalCacheRef
    simp
  · show LayerHeap.hget _ _ = _
    unfold LayerHeap.hget layerFromLocalCacheRef
    simp [hm, getD_concat_length]

/-- Example instantiation of `c10_layer_miss_zero_entry` on the fresh
cache and an empty heap. -/
theorem c10_layer_miss_zero_entry_witness :
    cache0.lcache "k" = none ∧
    (layerFromLocalCache cache0 "k" = (Entry.zero, false) ∧
     layerFromLocalCacheRef cache0 ⟨[]⟩ "k" =
       (cache0, ⟨(⟨[]⟩ : LayerHeap).cells ++ [Entry.zero]⟩,
        (⟨[]⟩ : LayerHeap).cells.length, false) ∧
     (layerFromLocalCacheRef cache0 ⟨[]⟩ "k").2.2.1 <
       (layerFromLocalCacheRef cache0 ⟨[]⟩ "k").2.1.cells.length ∧
     (layerFromLocalCacheRef cache0 ⟨[]⟩ "k").2.1.hget
       (layerFromLocalCacheRef cache0 ⟨[]⟩ "k").2.2.1 = Entry.zero) :=
  ⟨rfl, c10_layer_miss_zero_entry cache0 ⟨[]⟩ "k" rfl⟩

/-- C4: on a local hit, both fetch operations return the locally cached
value with the state completely unchanged, no deferred task and an empty
durable-operation trace: the durable store is neither probed, read nor
written. -/
theorem c4_local_hit_no_remote_contact (s : State) (key : String) (m : Bytes)
    (e : Entry)
    (hf : s.fs.files (s.cache.mdir ++ key) = some m)
    (ho : s.fs.openFail (s.cache.mdir ++ key) = false)
    (hr : s.fs.readAllFail (s.cache.mdir ++ key) = false)
    (hl : s.cache.lcache key = some e) :
    manifestFromCache s key = ((some m, true), s, [], []) ∧
    layerFromCache s key = ((some e, true), s, [], []) := by
  constructor
  · unfold manifestFromCache manifestFromLocalCache
    simp [hf, ho, hr]
  · unfold layerFromCache layerFromLocalCache
    simp [hl]

/-- Example instantiation of `c4_local_hit_no_remote_contact` on a state
whose local tiers hold key `abc`. -/
theorem c4_local_hit_no_remote_contact_witness :
    stateHit.fs.files (stateHit.cache.mdir ++ "abc") = some [7, 7] ∧
    stateHit.fs.openFail (stateHit.cache.mdir ++ "abc") = false ∧
    stateHit.fs.readAllFail (stateHit.cache.mdir ++ "abc") = false ∧
    stateHit.cache.lcache "abc" = some entryDead ∧
    (manifestFromCache stateHit "abc" = ((some [7, 7], true), stateHit, [], []) ∧
     layerFromCache stateHit "abc" = ((some entryDead, true), stateHit, [], [])) :=
  ⟨by decide, rfl, rfl, by decide,
   c4_local_hit_no_remote_contact stateHit "abc" [7, 7] entryDead
     (by decide) rfl rfl (by decide)⟩

/-- After a (successful or failed) local manifest write for `key`, a
fetch of `key` hits the local tier when the write and the local reads do
not fail. -/
lemma fetch_after_localCacheManifest (s : State) (key : String) (m : Bytes)
    (hw : s.fs.writeFail (s.cache.mdir ++ key) = false)
    (ho : s.fs.openFail (s.cache.mdir ++ key) = false)
    (hr : s.fs.readAllFail (s.cache.mdir ++ key) = false) :
    (manifestFromCache (localCacheManifest s key m) key).1 = (some m, true) := by
  unfold localCacheManifest manifestFromCache manifestFromLocalCache
  simp [hw, ho, hr, Function.update_same]

/-- C1: on an empty cache (no local file, no durable object for the
key) `manifestFromCache` returns `(nil, false)`; and after
`cacheManifest(k, p)` completes including its deferred fire-and-forget
local write (`runTasks`), `manifestFromCache(k)` returns `(p, true)` —
provided the local tier's write and reads do not fail (the cache is
best-effort, so a failing local disk can only be compensated by the
durable tier). -/
theorem c1_manifest_roundtrip (s : State) (key : String) (m : Bytes) :
    (s.fs.files (s.cache.mdir ++ key) = none →
     s.bucket.objects ("manifests/" ++ key) = none →
     (manifestFromCache s key).1 = (none, false)) ∧
    (s.fs.writeFail (s.cache.mdir ++ key) = false →
     s.fs.openFail (s.cache.mdir ++ key) = false →
     s.fs.readAllFail (s.cache.mdir ++ key) = false →
     (manifestFromCache
        (runTasks (cacheManifest s key m).1 (cacheManifest s key m).2.1) key).1
       = (some m, true)) := by
  constructor
  · intro hf hb
    unfold manifestFromCache manifestFromLocalCache
    simp [hf, hb, State.logged]
  · intro hw ho hr
    have step : ∀ s' : State, s'.cache = s.cache → s'.fs = s.fs →
        (manifestFromCache (runTasks s' [GoTask.writeManifest key m]) key).1
          = (some m, true) := by
      intro s' hc hfs
      show (manifestFromCache (localCacheManifest s' key m) key).1 = _
      exact fetch_after_localCacheManifest s' key m
        (by rw [hc, hfs]; exact hw) (by rw [hc, hfs]; exact ho)
        (by rw [hc, hfs]; exact hr)
    unfold cacheManifest
    dsimp only
    split_ifs <;> exact step _ rfl rfl

/-- Example instantiation of `c1_manifest_roundtrip`: the
miss-then-store-then-hit scenario on the fresh state, with the payload
bytes of `{"x":1}`. -/
theorem c1_manifest_roundtrip_witness :
    state0.fs.files (state0.cache.mdir ++ "abc") = none ∧
    state0.bucket.objects ("manifests/" ++ "abc") = none ∧
    (manifestFromCache state0 "abc").1 = (none, false) ∧
    state0.fs.writeFail (state0.cache.mdir ++ "abc") = false ∧
    state0.fs.openFail (state0.cache.mdir ++ "abc") = false ∧
    state0.fs.readAllFail (state0.cache.mdir ++ "abc") = false ∧
    (manifestFromCache
       (runTasks (cacheManifest state0 "abc" [123, 34, 120, 34, 58, 49, 125]).1
         (cacheManifest state0 "abc" [123, 34, 120, 34, 58, 49, 125]).2.1) "abc").1
      = (some [123, 34, 120, 34, 58, 49, 125], true) :=
  ⟨rfl, rfl,
   (c1_manifest_roundtrip state0 "abc" [123, 34, 120, 34, 58, 49, 125]).1 rfl rfl,
   rfl, rfl, rfl,
   (c1_manifest_roundtrip state0 "abc" [123, 34, 120, 34, 58, 49, 125]).2 rfl rfl rfl⟩

/-- C3: a fetch whose local lookup misses and whose durable existence
probe succeeds, but whose durable read (reader creation or read-out — or,
for layers, unmarshalling) fails, returns `(_, false)`, schedules no
fire-and-forget local write, and leaves the local cache and the file
system untouched. -/
theorem c3_durable_read_failure_no_writeback (s : State) (key : String)
    (mb bb : Bytes) :
    (s.fs.files (s.cache.mdir ++ key) = none →
     s.bucket.objects ("manifests/" ++ key) = some mb →
     s.bucket.attrsFail ("manifests/" ++ key) = false →
     (s.bucket.readerFail ("manifests/" ++ key) = true ∨
      s.bucket.readAllFail ("manifests/" ++ key) = true) →
     (manifestFromCache s key).1 = (none, false) ∧
     (manifestFromCache s key).2.2.1 = [] ∧
     (manifestFromCache s key).2.1.cache = s.cache ∧
     (manifestFromCache s key).2.1.fs = s.fs) ∧
    (s.cache.lcache key = none →
     s.bucket.objects ("builds/" ++ key) = some bb →
     s.bucket.attrsFail ("builds/" ++ key) = false →
     (s.bucket.readerFail ("builds/" ++ key) = true ∨
      s.bucket.readAllFail ("builds/" ++ key) = true ∨
      deserializeEntry bb = none) →
     (layerFromCache s key).1 = (none, false) ∧
     (layerFromCache s key).2.2.1 = [] ∧
     (layerFromCache s key).2.1.cache = s.cache ∧
     (layerFromCache s key).2.1.fs = s.fs) := by
  constructor
  · intro hf hobj hattr hfail
    unfold manifestFromCache manifestFromLocalCache
    rcases hfail with h | h
    · simp [hf, hobj, hattr, h, State.logged]
    · cases hrd : s.bucket.readerFail ("manifests/" ++ key) <;>
        simp [hf, hobj, hattr, h, hrd, State.logged]
  · intro hl hobj hattr hfail
    unfold layerFromCache layerFromLocalCache
    rcases hfail with h | h | h
    · simp [hl, hobj, hattr, h, State.logged]
    · cases hrd : s.bucket.readerFail ("builds/" ++ key) <;>
        simp [hl, hobj, hattr, h, hrd, State.logged]
    · cases hrd : s.bucket.readerFail ("builds/" ++ key) <;>
        cases hra : s.bucket.readAllFail ("builds/" ++ key) <;>
        simp [hl, hobj, hattr, h, hrd, hra, State.logged]

/-- Example instantiation of `c3_durable_read_failure_no_writeback` on a
state whose bucket holds `manifests/abc` behind a failing reader and
`builds/abc` as bytes that do not unmarshal. -/
theorem c3_durable_read_failure_no_writeback_witness :
    stateRemoteFail.fs.files (stateRemoteFail.cache.mdir ++ "abc") = none ∧
    stateRemoteFail.bucket.objects ("manifests/" ++ "abc") = some [1] ∧
    stateRemoteFail.bucket.attrsFail ("manifests/" ++ "abc") = false ∧
    stateRemoteFail.bucket.readerFail ("manifests/" ++ "abc") = true ∧
    stateRemoteFail.cache.lcache "abc" = none ∧
    stateRemoteFail.bucket.objects ("builds/" ++ "abc") = some [] ∧
    stateRemoteFail.bucket.attrsFail ("builds/" ++ "abc") = false ∧
    deserializeEntry [] = none ∧
    ((manifestFromCache stateRemoteFail "abc").1 = (none, false) ∧
     (manifestFromCache stateRemoteFail "abc").2.2.1 = [] ∧
     (manifestFromCache stateRemoteFail "abc").2.1.cache = stateRemoteFail.cache ∧
     (manifestFromCache stateRemoteFail "abc").2.1.fs = stateRemoteFail.fs) ∧
    ((layerFromCache stateRemoteFail "abc").1 = (none, false) ∧
     (layerFromCache stateRemoteFail "abc").2.2.1 = [] ∧
     (layerFromCache stateRemoteFail "abc").2.1.cache = stateRemoteFail.cache ∧
     (layerFromCache stateRemoteFail "abc").2.1.fs = stateRemoteFail.fs) :=
  ⟨rfl, by decide, rfl, by decide, rfl, by decide, rfl, rfl,
   (c3_durable_read_failure_no_writeback stateRemoteFail "abc" [1] []).1
     rfl (by decide) rfl (Or.inl (by decide)),
   (c3_durable_read_failure_no_writeback stateRemoteFail "abc" [1] []).2
     rfl (by decide) rfl (Or.inr (Or.inr rfl))⟩

/-- The state of the C6 counterexample: the backing file for key `k` is
present on disk, but opening it fails (e.g. a permission error). -/
def sC6 : State :=
  { cache := cache0,
    fs := { fs0 with
            files := fun p => if p = "/tmp/nixery/k" then some [1] else none,
            openFail := fun _ => true },
    bucket := bucket0, log := [] }

/-- C6 counterexample: a local read failure that is *not* file absence —
the file is present but `os.Open` fails — is logged at debug severity,
not at the claimed error severity: the code logs every `os.Open` failure
at debug, whether or not the file is absent. -/
theorem c6_local_read_severity_counterexample :
    sC6.fs.files ("/tmp/nixery/" ++ "k") = some [1] ∧
    (manifestFromLocalCache sC6 "k").1 = (none, false) ∧
    (manifestFromLocalCache sC6 "k").2.log =
      [⟨Severity.debug, "failed to read manifest from local cache"⟩] ∧
    Severity.debug ≠ Severity.error := by
  refine ⟨by decide, by decide, by decide, by decide⟩

/-- C6 (amended): the local manifest read returns `found = false` both
when `os.Open` fails (file absent or any other open failure) and on a
post-open read failure, so callers cannot distinguish the outcomes; any
open failure is logged at debug severity (absence being the expected
case), while a failure of the read after a successful open is logged at
error severity. -/
theorem c6_local_read_severity (s : State) (key : String) (m : Bytes) :
    ((s.fs.files (s.cache.mdir ++ key) = none ∨
      s.fs.openFail (s.cache.mdir ++ key) = true) →
     (manifestFromLocalCache s key).1 = (none, false) ∧
     (manifestFromLocalCache s key).2.log =
       s.log ++ [⟨Severity.debug, "failed to read manifest from local cache"⟩]) ∧
    (s.fs.files (s.cache.mdir ++ key) = some m →
     s.fs.openFail (s.cache.mdir ++ key) = false →
     s.fs.readAllFail (s.cache.mdir ++ key) = true →
     (manifestFromLocalCache s key).1 = (none, false) ∧
     (manifestFromLocalCache s key).2.log =
       s.log ++ [⟨Severity.error, "failed to read manifest from local cache"⟩]) := by
  constructor
  · intro hfail
    unfold manifestFromLocalCache
    rcases hfail with h | h
    · simp [h, State.logged]
    · cases hf : s.fs.files (s.cache.mdir ++ key) <;> simp [h, hf, State.logged]
  · intro hf ho hr
    unfold manifestFromLocalCache
    simp [hf, ho, hr, State.logged]

/-- The state of the C6 witness's second branch: the backing file for
key `k` opens fine but the post-open read fails. -/
def sReadFail : State :=
  { cache := cache0,
    fs := { fs0 with
            files := fun p => if p = "/tmp/nixery/k" then some [1] else none,
            readAllFail := fun _ => true },
    bucket := bucket0, log := [] }

/-- Example instantiation of `c6_local_read_severity`: an absent file on
the fresh state (debug severity), and a failing post-open read on a
state whose file is present (error severity). -/
theorem c6_local_read_severity_witness :
    (state0.fs.files (state0.cache.mdir ++ "k") = none ∨
     state0.fs.openFail (state0.cache.mdir ++ "k") = true) ∧
    ((manifestFromLocalCache state0 "k").1 = (none, false) ∧
     (manifestFromLocalCache state0 "k").2.log =
       state0.log ++ [⟨Severity.debug, "failed to read manifest from local cache"⟩]) ∧
    sReadFail.fs.files (sReadFail.cache.mdir ++ "k") = some [1] ∧
    sReadFail.fs.openFail (sReadFail.cache.mdir ++ "k") = false ∧
    sReadFail.fs.readAllFail (sReadFail.cache.mdir ++ "k") = true ∧
    ((manifestFromLocalCache sReadFail "k").1 = (none, false) ∧
     (manifestFromLocalCache sReadFail "k").2.log =
       sReadFail.log ++ [⟨Severity.error, "failed to read manifest from local cache"⟩]) :=
  ⟨Or.inl rfl,
   (c6_local_read_severity state0 "k" []).1 (Or.inl rfl),
   by decide, rfl, rfl,
   (c6_local_read_severity sReadFail "k" [1]).2 (by decide) rfl rfl⟩

/-- C7: `cacheLayer` serializes the entry and synchronously (no deferred
task) writes the bytes to the durable store under the `builds/`
namespace; when the copy or the close fails, the failure is logged at
error severity, the object is not materialized, and the operation still
returns (with the local map already updated). -/
theorem c7_storeLayer_durable_write (s : State) (key : String) (e : Entry) :
    (cacheLayer s key e).2.1 = [] ∧
    (s.bucket.copyFail ("builds/" ++ key) = false →
     s.bucket.closeFail ("builds/" ++ key) = false →
     (cacheLayer s key e).1.bucket.objects =
       Function.update s.bucket.objects ("builds/" ++ key)
         (some (serializeEntry e)) ∧
     (cacheLayer s key e).1.log = s.log) ∧
    ((s.bucket.copyFail ("builds/" ++ key) = true ∨
      s.bucket.closeFail ("builds/" ++ key) = true) →
     (cacheLayer s key e).1.bucket = s.bucket ∧
     (cacheLayer s key e).1.log =
       s.log ++ [⟨Severity.error, "failed to cache layer"⟩]) := by
  refine ⟨?_, ?_, ?_⟩
  · unfold cacheLayer
    dsimp only
    split_ifs <;> rfl
  · intro hc hcl
    unfold cacheLayer localCacheLayer
    simp [hc, hcl]
  · intro hfail
    unfold cacheLayer localCacheLayer
    rcases hfail with h | h
    · simp [h, State.logged]
    · cases hc : s.bucket.copyFail ("builds/" ++ key) <;>
        simp [h, hc, State.logged]

/-- Example instantiation of `c7_storeLayer_durable_write`: a successful
durable write on the fresh state, and a failing one on the all-failing
state. -/
theorem c7_storeLayer_durable_write_witness :
    (cacheLayer state0 "L1" entryDead).2.1 = [] ∧
    state0.bucket.copyFail ("builds/" ++ "L1") = false ∧
    state0.bucket.closeFail ("builds/" ++ "L1") = false ∧
    ((cacheLayer state0 "L1" entryDead).1.bucket.objects =
       Function.update state0.bucket.objects ("builds/" ++ "L1")
         (some (serializeEntry entryDead)) ∧
     (cacheLayer state0 "L1" entryDead).1.log = state0.log) ∧
    sAllFail.bucket.copyFail ("builds/" ++ "L1") = true ∧
    ((cacheLayer sAllFail "L1" entryDead).1.bucket = sAllFail.bucket ∧
     (cacheLayer sAllFail "L1" entryDead).1.log =
       sAllFail.log ++ [⟨Severity.error, "failed to cache layer"⟩]) :=
  ⟨(c7_storeLayer_durable_write state0 "L1" entryDead).1, rfl, rfl,
   (c7_storeLayer_durable_write state0 "L1" entryDead).2.1 rfl rfl,
   rfl,
   (c7_storeLayer_durable_write sAllFail "L1" entryDead).2.2 (Or.inl rfl)⟩

/-- C2: no failure of a collaborator ever surfaces as a failure of a
cache operation.  Even in a state where every fallible call fails, both
fetches return a plain not-found, both stores return normally having
only logged the failure (bucket, file system and local cache untouched
by `cacheManifest`, even after its deferred local write runs; bucket
untouched by `cacheLayer`); construction is the one operation that
propagates an error, exactly when the backing directory cannot be
created. -/
theorem c2_no_error_propagation (s : State) (key : String) (m : Bytes) (e : Entry)
    (hopen : ∀ p, s.fs.openFail p = true)
    (hwrite : ∀ p, s.fs.writeFail p = true)
    (hattr : ∀ k, s.bucket.attrsFail k = true)
    (hcopy : ∀ k, s.bucket.copyFail k = true)
    (hl : s.cache.lcache key = none) :
    (manifestFromCache s key).1 = (none, false) ∧
    (layerFromCache s key).1 = (none, false) ∧
    (cacheManifest s key m).1.bucket = s.bucket ∧
    (cacheManifest s key m).1.fs = s.fs ∧
    (cacheManifest s key m).1.cache = s.cache ∧
    (cacheManifest s key m).1.log =
      s.log ++ [⟨Severity.error, "failed to cache manifest to GCS"⟩] ∧
    (runTasks (cacheManifest s key m).1 (cacheManifest s key m).2.1).fs.files
      = s.fs.files ∧
    (cacheLayer s key e).1.bucket = s.bucket ∧
    (cacheLayer s key e).1.log =
      s.log ++ [⟨Severity.error, "failed to cache layer"⟩] ∧
    (∀ fs : FileSystem, fs.mkdirFail = true → NewCache fs = .error "mkdir failed") ∧
    (∀ fs : FileSystem, fs.mkdirFail = false →
       NewCache fs = .ok ({ mdir := fs.tempDir ++ "/nixery" ++ "/",
                            lcache := fun _ => none },
                          { fs with dirs :=
                              Function.update fs.dirs (fs.tempDir ++ "/nixery") true })) := by
  have h1 := hopen (s.cache.mdir ++ key)
  have h2 := hattr ("manifests/" ++ key)
  have h3 := hattr ("builds/" ++ key)
  have h4 := hcopy ("manifests/" ++ key)
  have h5 := hcopy ("builds/" ++ key)
  have h6 := hwrite (s.cache.mdir ++ key)
  refine ⟨?_, ?_, ?_, ?_, ?_, ?_, ?_, ?_, ?_, ?_, ?_⟩
  · unfold manifestFromCache manifestFromLocalCache
    cases hf : s.fs.files (s.cache.mdir ++ key) <;>
      cases hb : s.bucket.objects ("manifests/" ++ key) <;>
      simp [hf, hb, h1, h2, State.logged]
  · unfold layerFromCache layerFromLocalCache
    cases hb : s.bucket.objects ("builds/" ++ key) <;>
      simp [hl, hb, h3, State.logged]
  · unfold cacheManifest
    simp [h4, State.logged]
  · unfold cacheManifest
    simp [h4, State.logged]
  · unfold cacheManifest
    simp [h4, State.logged]
  · unfold cacheManifest
    simp [h4, State.logged]
  · unfold cacheManifest runTasks
    simp only [h4, if_true]
    show (localCacheManifest ((s.logged .error _)) key m).fs.files = s.fs.files
    unfold localCacheManifest
    simp [h6, State.logged]
  · unfold cacheLayer localCacheLayer
    simp [h5, State.logged]
  · unfold cacheLayer localCacheLayer
    simp [h5, State.logged]
  · intro fs hmk
    unfold NewCache
    simp [hmk]
  · intro fs hmk
    unfold NewCache
    simp [hmk]

/-- Example instantiation of `c2_no_error_propagation` on the state in
which every fallible collaborator call fails. -/
theorem c2_no_error_propagation_witness :
    (∀ p, sAllFail.fs.openFail p = true) ∧
    (∀ p, sAllFail.fs.writeFail p = true) ∧
    (∀ k, sAllFail.bucket.attrsFail k = true) ∧
    (∀ k, sAllFail.bucket.copyFail k = true) ∧
    sAllFail.cache.lcache "abc" = none ∧
    ((manifestFromCache sAllFail "abc").1 = (none, false) ∧
     (layerFromCache sAllFail "abc").1 = (none, false) ∧
     (cacheManifest sAllFail "abc" [1]).1.bucket = sAllFail.bucket ∧
     (cacheManifest sAllFail "abc" [1]).1.fs = sAllFail.fs ∧
     (cacheManifest sAllFail "abc" [1]).1.cache = sAllFail.cache ∧
     (cacheManifest sAllFail "abc" [1]).1.log =
       sAllFail.log ++ [⟨Severity.error, "failed to cache manifest to GCS"⟩] ∧
     (runTasks (cacheManifest sAllFail "abc" [1]).1
        (cacheManifest sAllFail "abc" [1]).2.1).fs.files = sAllFail.fs.files ∧
     (cacheLayer sAllFail "abc" entryDead).1.bucket = sAllFail.bucket ∧
     (cacheLayer sAllFail "abc" entryDead).1.log =
       sAllFail.log ++ [⟨Severity.error, "failed to cache layer"⟩] ∧
     (∀ fs : FileSystem, fs.mkdirFail = true → NewCache fs = .error "mkdir failed") ∧
     (∀ fs : FileSystem, fs.mkdirFail = false →
        NewCache fs = .ok ({ mdir := fs.tempDir ++ "/nixery" ++ "/",
                             lcache := fun _ => none },
                           { fs with dirs :=
                               Function.update fs.dirs (fs.tempDir ++ "/nixery") true }))) :=
  ⟨fun _ => rfl, fun _ => rfl, fun _ => rfl, fun _ => rfl, rfl,
   c2_no_error_propagation sAllFail "abc" [1] entryDead
     (fun _ => rfl) (fun _ => rfl) (fun _ => rfl) (fun _ => rfl) rfl⟩

/-- C8 counterexample: two separately constructed cache instances *do*
share the manifest backing directory — `NewCache` always uses the fixed
path `os.TempDir() + "/nixery"`, so constructing twice on the benign
file system yields the same `mdir` both times. -/
theorem c8_shared_backing_dir_counterexample :
    ((NewCache fs0).toOption.map fun p => p.1.mdir) = some "/tmp/nixery/" ∧
    (((NewCache fs0).toOption.bind fun p => (NewCache p.2).toOption).map
       fun p => p.1.mdir) = some "/tmp/nixery/" := by
  constructor <;> rfl

/-- C8 (amended): every successful construction creates, before
returning, the process-local backing directory — but at the fixed path
`os.TempDir() + "/nixery"`, not one dedicated to the instance: a second
construction from the resulting file system yields a cache with the very
same backing directory. -/
theorem c8_newCache_creates_fixed_dir (fs : FileSystem)
    (h : fs.mkdirFail = false) :
    NewCache fs = .ok ({ mdir := fs.tempDir ++ "/nixery" ++ "/",
                         lcache := fun _ => none },
                       { fs with dirs :=
                           Function.update fs.dirs (fs.tempDir ++ "/nixery") true }) ∧
    (∀ c fs', NewCache fs = .ok (c, fs') →
       fs'.dirs (fs.tempDir ++ "/nixery") = true ∧
       c.mdir = fs.tempDir ++ "/nixery" ++ "/" ∧
       ∀ c2 fs2, NewCache fs' = .ok (c2, fs2) → c2.mdir = c.mdir) := by
  constructor
  · unfold NewCache
    simp [h]
  · intro c fs' hok
    unfold NewCache at hok
    simp only [h, if_false, Bool.false_eq_true] at hok
    cases hok
    refine ⟨by simp [Function.update_same], rfl, ?_⟩
    intro c2 fs2 hok2
    unfold NewCache at hok2
    simp only [h, if_false, Bool.false_eq_true] at hok2
    cases hok2
    rfl

/-- Example instantiation of `c8_newCache_creates_fixed_dir` on the
benign file system. -/
theorem c8_newCache_creates_fixed_dir_witness :
    fs0.mkdirFail = false ∧
    (NewCache fs0 = .ok ({ mdir := fs0.tempDir ++ "/nixery" ++ "/",
                           lcache := fun _ => none },
                         { fs0 with dirs :=
                             Function.update fs0.dirs (fs0.tempDir ++ "/nixery") true }) ∧
     (∀ c fs', NewCache fs0 = .ok (c, fs') →
        fs'.dirs (fs0.tempDir ++ "/nixery") = true ∧
        c.mdir = fs0.tempDir ++ "/nixery" ++ "/" ∧
        ∀ c2 fs2, NewCache fs' = .ok (c2, fs2) → c2.mdir = c.mdir)) :=
  ⟨rfl, c8_newCache_creates_fixed_dir fs0 rfl⟩
